import Mathlib

/-!
Verification of the Ihara-Grubb network transform (src/main.py).

Shallow embedding conventions:

* Python floats are modelled as exact numbers: values that stay inside field
  arithmetic (latencies, configuration constants, JSON numbers, coordinates)
  are `ℚ`, so the embedding is executable; the trigonometric haversine
  distance is computed in `ℝ` (`Real.sin`, `Real.cos`, `Real.sqrt`,
  `math.atan2` modelled by `atan2` below).
* Python exceptions become `Except` results.  The typed errors of the core are
  `IGError`; exceptions of the Python runtime raised inside the response
  adapters (`float`, `str.split` on a non-string) are `PyError`.
* Python object identity (`node == self.user_node` compares identities, the
  classes define no `__eq__`) is modelled by a numeric `id` field that
  `add_node` allocates from a counter.
* External effects are passed in explicitly: an HTTP attempt against a
  geolocation service is a `ServiceOutcome`, the host platform /
  `subprocess.run` / `re.search` / `time.time` world of a ping invocation is a
  `PingEnv`.
-/

/-- Runtime exceptions of the Python adapters: `float(v)` raises `ValueError`
on an unparsable string and `TypeError` on a non-numeric non-string value;
`v.split(",")` raises `AttributeError` when `v` is not a string. -/
inductive PyError where
  | valueError
  | typeError
  | attributeError
deriving DecidableEq

/-- The typed errors of the core.  `invalidCoordinate` is the `ValueError`
raised by `haversine` on out-of-range input, `latencyNotMeasured` the
`ValueError` of `calculate_ig_distance` when a latency is absent,
`noServiceAvailable` the `RuntimeError` of `fetch_user_location`, and
`noNodes` the `ValueError` of `plot_net` on an empty node list. -/
inductive IGError where
  | invalidCoordinate
  | latencyNotMeasured
  | noServiceAvailable
  | noNodes
deriving DecidableEq

deriving instance DecidableEq for Except

/-- A decoded JSON value as the response adapters see one.  The adapters never
look inside arrays or objects (they only call `float` on such a value, which
raises `TypeError`, or `.split`, which raises `AttributeError`), so arrays and
objects are collapsed to payload-free constructors. -/
inductive JValue where
  | jnum (q : ℚ)
  | jstr (s : String)
  | jbool (b : Bool)
  | jnull
  | jarr
  | jobj
deriving DecidableEq

/-- A decoded JSON object: a string-keyed mapping (keys assumed distinct, as
in a Python dict). -/
abbrev JDict := List (String × JValue)

/-- Python `data.get(key, dflt)`. -/
def dictGet (data : JDict) (key : String) (dflt : JValue) : JValue :=
  match data.lookup key with
  | some v => v
  | none => dflt

/-- Numeric value of a list of decimal digits. -/
def natOfDigits (l : List Char) : ℕ :=
  l.foldl (fun a c => 10 * a + (c.toNat - 48)) 0

/-- Unsigned part of Python `float` string parsing: digits with an optional
fractional part (`"40"`, `"40.0"`, `"40."`, `".5"`); anything else is
rejected. -/
def parseUnsigned (l : List Char) : Option ℚ :=
  let intPart := l.takeWhile Char.isDigit
  let rest := l.dropWhile Char.isDigit
  match rest with
  | [] => if intPart.isEmpty then none else some (natOfDigits intPart)
  | '.' :: frac =>
      if frac.all Char.isDigit ∧ ¬(intPart.isEmpty ∧ frac.isEmpty) then
        if natOfDigits frac = 0 then some (natOfDigits intPart)
        else some ((natOfDigits intPart : ℚ) + (natOfDigits frac : ℚ) / 10 ^ frac.length)
      else none
  | _ => none

/-- Model of Python `float(s)` on a string: an optional sign followed by a
plain decimal literal; `none` models the `ValueError` branch.  (Exotic
accepted spellings of CPython — exponents, `inf`, `nan`, surrounding
whitespace — do not occur in this program's inputs and are not modelled.) -/
def pyFloatString (s : String) : Option ℚ :=
  match s.data with
  | '-' :: rest => (parseUnsigned rest).map (fun q => -q)
  | '+' :: rest => parseUnsigned rest
  | l => parseUnsigned l

/-- Model of Python `float(v)` on a decoded JSON value.  Booleans convert
(`float(True) == 1.0`); `None`, arrays and objects raise `TypeError`. -/
def pyFloat (v : JValue) : Except PyError ℚ :=
  match v with
  | .jnum q => .ok q
  | .jstr s =>
      match pyFloatString s with
      | some q => .ok q
      | none => .error .valueError
  | .jbool b => .ok (if b then 1 else 0)
  | .jnull => .error .typeError
  | .jarr => .error .typeError
  | .jobj => .error .typeError

/-- src/main.py `_parse_ipapi_response`: `(float(data.get("lat", 0)),
float(data.get("lon", 0)), data.get("query", ""))`.  The address component is
returned as the raw JSON value, exactly as `dict.get` hands it over. -/
def _parse_ipapi_response (data : JDict) : Except PyError (ℚ × ℚ × JValue) := do
  let lat ← pyFloat (dictGet data "lat" (.jnum 0))
  let lon ← pyFloat (dictGet data "lon" (.jnum 0))
  return (lat, lon, dictGet data "query" (.jstr ""))

/-- Splitting worker for `pySplit`: walks the characters, cutting at each
separator; `acc` holds the current piece reversed. -/
def pySplitAux (sep : Char) : List Char → List Char → List String
  | [], acc => [String.mk acc.reverse]
  | c :: cs, acc =>
      if c = sep then String.mk acc.reverse :: pySplitAux sep cs []
      else pySplitAux sep cs (c :: acc)

/-- Model of Python `s.split(sep)` for a one-character separator:
`"a,b".split(",") == ["a", "b"]`, `"".split(",") == [""]`. -/
def pySplit (s : String) (sep : Char) : List String :=
  pySplitAux sep s.data []

/-- src/main.py `_parse_ipinfo_response`: splits `data.get("loc", "0,0")` on
a comma; on a two-component split both components go through `float` inside a
`try`/`except ValueError` that degrades to `(0.0, 0.0, ip)`; any other arity
also degrades.  A non-string `loc` value has no `.split` and raises
`AttributeError`. -/
def _parse_ipinfo_response (data : JDict) : Except PyError (ℚ × ℚ × JValue) :=
  match dictGet data "loc" (.jstr "0,0") with
  | .jstr loc_str =>
      let coords := pySplit loc_str ','
      if coords.length = 2 then
        match pyFloatString (coords.headD ""), pyFloatString ((coords.drop 1).headD "") with
        | some lat, some lon => .ok (lat, lon, dictGet data "ip" (.jstr ""))
        | _, _ => .ok (0, 0, dictGet data "ip" (.jstr ""))
      else .ok (0, 0, dictGet data "ip" (.jstr ""))
  | _ => .error .attributeError

/-- What one HTTP attempt against a geolocation service produced:
`transportError` is `httpx.RequestError`, `statusError` the
`HTTPStatusError` of `raise_for_status` on a non-2xx status, `jsonError` a
failing `response.json()`, and `body` a decoded JSON object. -/
inductive ServiceOutcome where
  | transportError
  | statusError
  | jsonError
  | body (data : JDict)
deriving DecidableEq

/-- One iteration of the service loop of `fetch_user_location`: `some` result
exactly when the HTTP attempt produced a body, the service's adapter parsed
it without an exception, and the coordinates are not both exactly zero; every
failure (all exception classes are caught) and the all-zero rejection fall
through to `none`, which the loop answers by trying the next service. -/
def serviceAttempt (outcome : ServiceOutcome)
    (parse : JDict → Except PyError (ℚ × ℚ × JValue)) : Option (ℚ × ℚ × JValue) :=
  match outcome with
  | .body data =>
      match parse data with
      | .ok (lat, lon, ip) => if lat ≠ 0 ∨ lon ≠ 0 then some (lat, lon, ip) else none
      | .error _ => none
  | _ => none

/-- src/main.py `fetch_user_location`: tries ip-api.com (adapter
`_parse_ipapi_response`) and then ipinfo.io (adapter
`_parse_ipinfo_response`) in that fixed order, returning on the first
accepted result and raising `RuntimeError` (`noServiceAvailable`) when both
services are exhausted.  The two `ServiceOutcome` arguments are what the two
HTTP attempts would produce. -/
def fetch_user_location (s1 s2 : ServiceOutcome) : Except IGError (ℚ × ℚ × JValue) :=
  match serviceAttempt s1 _parse_ipapi_response with
  | some t => .ok t
  | none =>
      match serviceAttempt s2 _parse_ipinfo_response with
      | some t => .ok t
      | none => .error .noServiceAvailable

/-- src/main.py `Node`: a network endpoint.  `id` models Python object
identity (the code compares nodes with `==`, which on this class is identity);
`latency` is `None` until probed. -/
structure Node where
  id : ℕ
  name : String
  lat : ℚ
  lon : ℚ
  elevation : ℚ
  ip_address : String
  latency : Option ℚ
deriving DecidableEq

/-- src/main.py `IharaGrubbTransform`: configuration plus the node
collection.  `user_id` models `self.user_node` (an identity reference into
`nodes`, or `None`); `next_id` is the identity supply for `add_node`. -/
structure IharaGrubbTransform where
  latency_base_ms : ℚ
  ping_count : ℤ
  ping_timeout : ℤ
  fallback_latency_ms : ℚ
  nodes : List Node
  user_id : Option ℕ
  next_id : ℕ
deriving DecidableEq

/-- Module constants of src/main.py. -/
def DEFAULT_LATENCY_BASE_MS : ℚ := 100

/-- Default ping packet count. -/
def DEFAULT_PING_COUNT : ℤ := 4

/-- Default ping timeout in seconds. -/
def DEFAULT_PING_TIMEOUT : ℤ := 5

/-- Latency substituted when a ping probe fails. -/
def FALLBACK_LATENCY_MS : ℚ := 999

/-- `IharaGrubbTransform.__init__` with all defaults: empty node list, no
user node. -/
def IharaGrubbTransform.init : IharaGrubbTransform :=
  ⟨DEFAULT_LATENCY_BASE_MS, DEFAULT_PING_COUNT, DEFAULT_PING_TIMEOUT,
    FALLBACK_LATENCY_MS, [], none, 0⟩

/-- src/main.py `add_node`: constructs a `Node` (the constructor performs no
validation of any argument), appends it to `self.nodes`, and records it as
`self.user_node` when `is_user_node` is set.  Returns the updated model and
the created node. -/
def add_node (t : IharaGrubbTransform) (name : String) (lat lon elevation_floor : ℚ)
    (ip_address : String) (is_user_node : Bool) : IharaGrubbTransform × Node :=
  let node : Node := ⟨t.next_id, name, lat, lon, elevation_floor, ip_address, none⟩
  ({ t with
      nodes := t.nodes ++ [node]
      next_id := t.next_id + 1
      user_id := if is_user_node then some node.id else t.user_id }, node)

/-- Outcome of one `subprocess.run` invocation: a `TimeoutExpired`, some
other unexpected exception (`raised`), or completion with an exit code and
captured standard output. -/
inductive RunResult where
  | timeoutExpired
  | raised
  | completed (returncode : ℤ) (stdout : String)

/-- The external world of one ping invocation: the host platform string
(`platform.system()`), what `subprocess.run` does on a given command line,
what `re.search` + `float(match.group(1))` extract from a pattern and a text
(`none` models no match), and the two `time.time()` samples taken around the
invocation (in seconds). -/
structure PingEnv where
  system : String
  run : List String → RunResult
  re_search : String → String → Option ℚ
  time_start : ℚ
  time_end : ℚ

/-- The platform dispatch of `get_live_latency`: the ping command line and
the output-extraction pattern for the host OS family, or `none` on an
unsupported family. -/
def pingSelect (t : IharaGrubbTransform) (env : PingEnv) (ip_address : String) :
    Option (List String × String) :=
  if env.system = "Windows" then
    some (["ping", "-n", toString t.ping_count, ip_address], "Average = (\\d+)ms")
  else if env.system = "Linux" ∨ env.system = "Darwin" then
    some (["ping", "-c", toString t.ping_count, "-W", "1", ip_address],
      "min/avg/max/[^\\s]+ = [\\d.]+/([\\d.]+)/")
  else none

/-- The `try` block of `get_live_latency`: run the command; a timeout or any
unexpected exception yields the configured fallback, a non-zero exit yields
the fallback, a matching extraction pattern yields the extracted average, and
a clean exit whose output does not match yields half the wall-clock duration
of the invocation in milliseconds.  The boolean records that a process was
spawned. -/
def runPing (t : IharaGrubbTransform) (env : PingEnv) (command : List String)
    (regex : String) : ℚ × Bool :=
  match env.run command with
  | .timeoutExpired => (t.fallback_latency_ms, true)
  | .raised => (t.fallback_latency_ms, true)
  | .completed returncode stdout =>
      if returncode ≠ 0 then (t.fallback_latency_ms, true)
      else
        match env.re_search regex stdout with
        | some avg_latency => (avg_latency, true)
        | none => ((env.time_end - env.time_start) * 1000 / 2, true)

/-- src/main.py `get_live_latency`: an empty or `"0.0.0.0"` address answers
`0.0` at once; an unsupported platform answers the configured fallback; both
without spawning a process (the boolean is `false` exactly there).
Otherwise the platform's ping command runs under `runPing`.  Total by
construction: it never raises. -/
def get_live_latency (t : IharaGrubbTransform) (env : PingEnv) (ip_address : String) :
    ℚ × Bool :=
  if ip_address = "" ∨ ip_address = "0.0.0.0" then (0, false)
  else
    match pingSelect t env ip_address with
    | some (command, regex) => runPing t env command regex
    | none => (t.fallback_latency_ms, false)

/-- The body of the `measure_latencies` loop for one node: a node with a
non-empty address is probed (`envAt` supplies the external world of that
node's invocation, indexed by node identity); the user node without an
address gets `0.0`; any other node without an address gets the default
`5.0`. -/
def measureNode (t : IharaGrubbTransform) (envAt : ℕ → PingEnv) (node : Node) : Node :=
  if node.ip_address ≠ "" then
    { node with latency := some (get_live_latency t (envAt node.id) node.ip_address).1 }
  else if t.user_id = some node.id then
    { node with latency := some 0 }
  else
    { node with latency := some 5 }

/-- src/main.py `measure_latencies`: assigns a latency to every node in the
collection, in list order. -/
def measure_latencies (t : IharaGrubbTransform) (envAt : ℕ → PingEnv) :
    IharaGrubbTransform :=
  { t with nodes := t.nodes.map (measureNode t envAt) }

/-- Overwrite the latency of the node at position `i` (helper for stating
frame effects; positions past the end leave the list unchanged). -/
def setLatencyList : List Node → ℕ → Option ℚ → List Node
  | [], _, _ => []
  | node :: rest, 0, l => { node with latency := l } :: rest
  | node :: rest, i + 1, l => node :: setLatencyList rest i l

/-- `setLatencyList` lifted to the model. -/
def setLatency (t : IharaGrubbTransform) (i : ℕ) (l : Option ℚ) :
    IharaGrubbTransform :=
  { t with nodes := setLatencyList t.nodes i l }

/-- Earth's mean radius in kilometers (module constant `R_EARTH_KM`). -/
noncomputable def R_EARTH_KM : ℝ := 6371

/-- Python `math.radians`: degrees to radians. -/
noncomputable def radians (x : ℝ) : ℝ := x * (Real.pi / 180)

open Classical in
/-- Python `math.atan2(y, x)`: the angle of the point `(x, y)`, in
`(-π, π]`, with `atan2(0, 0) = 0`.  (Signed floating-point zeros, which ℝ
does not have, never arise in `haversine`: both arguments are square
roots.) -/
noncomputable def atan2 (y x : ℝ) : ℝ :=
  if 0 < x then Real.arctan (y / x)
  else if x < 0 ∧ 0 ≤ y then Real.arctan (y / x) + Real.pi
  else if x < 0 ∧ y < 0 then Real.arctan (y / x) - Real.pi
  else if x = 0 ∧ 0 < y then Real.pi / 2
  else if x = 0 ∧ y < 0 then -(Real.pi / 2)
  else 0

/-- The intermediate `a` of `haversine`:
`sin(dlat/2)**2 + cos(lat1)*cos(lat2)*sin(dlon/2)**2` after the four inputs
were converted to radians (`dlat = lat2 - lat1`, `dlon = lon2 - lon1`). -/
noncomputable def hav_a (lat1 lon1 lat2 lon2 : ℚ) : ℝ :=
  Real.sin ((radians lat2 - radians lat1) / 2) ^ 2 +
    Real.cos (radians lat1) * Real.cos (radians lat2) *
      Real.sin ((radians lon2 - radians lon1) / 2) ^ 2

/-- The distance computed by `haversine` after validation:
`R_EARTH_KM * c` with `c = 2 * atan2(sqrt(a), sqrt(1 - a))`.  (`math.sqrt`
is modelled by `Real.sqrt`; its arguments are provably within `[0, 1]` for
validated inputs, see `hav_a_nonneg` and `hav_a_le_one`, so the domain error
of `math.sqrt` on negative input never fires.) -/
noncomputable def haversineDist (lat1 lon1 lat2 lon2 : ℚ) : ℝ :=
  R_EARTH_KM *
    (2 * atan2 (Real.sqrt (hav_a lat1 lon1 lat2 lon2))
      (Real.sqrt (1 - hav_a lat1 lon1 lat2 lon2)))

/-- src/main.py `haversine`: validates that each latitude is within
`[-90, 90]` and each longitude within `[-180, 180]` (raising `ValueError`,
here `invalidCoordinate`, otherwise, the latitude check first) and then
computes the great-circle distance in kilometers. -/
noncomputable def haversine (lat1 lon1 lat2 lon2 : ℚ) : Except IGError ℝ :=
  if ¬(-90 ≤ lat1 ∧ lat1 ≤ 90) ∨ ¬(-90 ≤ lat2 ∧ lat2 ≤ 90) then
    .error .invalidCoordinate
  else if ¬(-180 ≤ lon1 ∧ lon1 ≤ 180) ∨ ¬(-180 ≤ lon2 ∧ lon2 ≤ 180) then
    .error .invalidCoordinate
  else
    .ok (haversineDist lat1 lon1 lat2 lon2)

/-- src/main.py `calculate_ig_distance`: requires both latencies to be
measured (`ValueError`, here `latencyNotMeasured`, otherwise — checked before
any distance math), then returns
`(physical_distance_km, worst_latency, ig_distance, ig_factor)` with
`worst_latency = max(node1.latency, node2.latency)`,
`ig_factor = 1.0 + worst_latency / latency_base_ms` and
`ig_distance = physical_distance_km * ig_factor`.  An out-of-range
coordinate propagates `invalidCoordinate` from `haversine`. -/
noncomputable def calculate_ig_distance (t : IharaGrubbTransform)
    (node1 node2 : Node) : Except IGError (ℝ × ℚ × ℝ × ℚ) :=
  match node1.latency, node2.latency with
  | some l1, some l2 =>
      match haversine node1.lat node1.lon node2.lat node2.lon with
      | .error e => .error e
      | .ok physical_distance_km =>
          let worst_latency := max l1 l2
          let ig_factor := 1 + worst_latency / t.latency_base_ms
          let ig_distance := physical_distance_km * (ig_factor : ℝ)
          .ok (physical_distance_km, worst_latency, ig_distance, ig_factor)
  | _, _ => .error .latencyNotMeasured

/-- The `ig_factor` component of a `calculate_ig_distance` result, when it
succeeded. -/
noncomputable def resultFactor (r : Except IGError (ℝ × ℚ × ℝ × ℚ)) : Option ℚ :=
  match r with
  | .ok (_, _, _, f) => some f
  | .error _ => none

/-- The node-state effect of src/main.py `plot_net`: an empty node list
raises `ValueError` (`noNodes`); then latencies are measured whenever at
least one node's latency is still `None`.  The rendering surface itself is
outside the specified core and mutates no node, and the per-connection
`calculate_ig_distance` calls only read the model, so the resulting model is
the whole state effect of the call. -/
def plot_net (t : IharaGrubbTransform) (envAt : ℕ → PingEnv)
    (connections : List (String × String)) : Except IGError IharaGrubbTransform :=
  if t.nodes.isEmpty then .error .noNodes
  else if t.nodes.any (fun node => node.latency.isNone) then
    .ok (measure_latencies t envAt)
  else .ok t

/-!
Helper lemmas about the haversine mathematics.
-/

lemma cos_radians_nonneg (q : ℚ) (h1 : -90 ≤ q) (h2 : q ≤ 90) :
    0 ≤ Real.cos (radians (q : ℝ)) := by
  apply Real.cos_nonneg_of_mem_Icc
  unfold radians
  constructor
  · have h : (-90 : ℝ) ≤ (q : ℝ) := by exact_mod_cast h1
    nlinarith [Real.pi_pos]
  · have h : (q : ℝ) ≤ 90 := by exact_mod_cast h2
    nlinarith [Real.pi_pos]

lemma hav_a_nonneg (lat1 lon1 lat2 lon2 : ℚ)
    (h1 : -90 ≤ lat1) (h2 : lat1 ≤ 90) (h3 : -90 ≤ lat2) (h4 : lat2 ≤ 90) :
    0 ≤ hav_a lat1 lon1 lat2 lon2 := by
  unfold hav_a
  have c1 := cos_radians_nonneg lat1 h1 h2
  have c2 := cos_radians_nonneg lat2 h3 h4
  have s1 := sq_nonneg (Real.sin ((radians (lat2 : ℝ) - radians (lat1 : ℝ)) / 2))
  have s2 := sq_nonneg (Real.sin ((radians (lon2 : ℝ) - radians (lon1 : ℝ)) / 2))
  have := mul_nonneg (mul_nonneg c1 c2) s2
  linarith

lemma hav_a_le_one (lat1 lon1 lat2 lon2 : ℚ) :
    hav_a lat1 lon1 lat2 lon2 ≤ 1 := by
  unfold hav_a
  set x := radians (lat1 : ℝ) with hx
  set y := radians (lat2 : ℝ) with hy
  set e := (radians (lon2 : ℝ) - radians (lon1 : ℝ)) / 2 with he
  have hS0 := sq_nonneg (Real.sin e)
  have hS1 : Real.sin e ^ 2 ≤ 1 := Real.sin_sq_le_one e
  have hP : Real.cos x * Real.cos y = (Real.cos (y - x) + Real.cos (x + y)) / 2 := by
    rw [Real.cos_sub, Real.cos_add]; ring
  have hC : Real.cos (y - x) = 2 * Real.cos ((y - x) / 2) ^ 2 - 1 := by
    have h := Real.cos_two_mul ((y - x) / 2)
    rw [show 2 * ((y - x) / 2) = y - x by ring] at h
    linarith
  have hsin : Real.sin ((y - x) / 2) ^ 2 = 1 - Real.cos ((y - x) / 2) ^ 2 := by
    have := Real.sin_sq_add_cos_sq ((y - x) / 2)
    linarith
  have hK : Real.cos (x + y) ≤ 1 := Real.cos_le_one _
  have hC0 := sq_nonneg (Real.cos ((y - x) / 2))
  by_cases hPs : 0 ≤ Real.cos x * Real.cos y
  · nlinarith [mul_le_of_le_one_right hPs hS1]
  · push_neg at hPs
    nlinarith [mul_nonpos_of_nonpos_of_nonneg hPs.le hS0]

lemma atan2_nonneg (y x : ℝ) (hy : 0 ≤ y) : 0 ≤ atan2 y x := by
  unfold atan2
  split_ifs with h1 h2 h3 h4 h5
  · have hd : (0 : ℝ) ≤ y / x := div_nonneg hy h1.le
    have := Real.arctan_strictMono.monotone hd
    simpa [Real.arctan_zero] using this
  · have := Real.neg_pi_div_two_lt_arctan (y / x)
    have := Real.pi_pos
    linarith
  · linarith [h3.2]
  · linarith [Real.pi_pos]
  · linarith [h5.2]
  · exact le_refl 0

lemma hav_a_diag (lat lon : ℚ) : hav_a lat lon lat lon = 0 := by
  unfold hav_a
  simp

lemma hav_a_symm (lat1 lon1 lat2 lon2 : ℚ) :
    hav_a lat1 lon1 lat2 lon2 = hav_a lat2 lon2 lat1 lon1 := by
  unfold hav_a
  have h : ∀ u v : ℝ, Real.sin ((u - v) / 2) ^ 2 = Real.sin ((v - u) / 2) ^ 2 := by
    intro u v
    rw [show (u - v) / 2 = -((v - u) / 2) by ring, Real.sin_neg]
    ring
  rw [h (radians (lat2 : ℝ)) (radians (lat1 : ℝ)),
    h (radians (lon2 : ℝ)) (radians (lon1 : ℝ))]
  ring

lemma haversineDist_diag (lat lon : ℚ) : haversineDist lat lon lat lon = 0 := by
  unfold haversineDist
  rw [hav_a_diag]
  norm_num [atan2, Real.arctan_zero]

lemma haversineDist_symm (lat1 lon1 lat2 lon2 : ℚ) :
    haversineDist lat1 lon1 lat2 lon2 = haversineDist lat2 lon2 lat1 lon1 := by
  unfold haversineDist
  rw [hav_a_symm]

lemma haversineDist_nonneg (lat1 lon1 lat2 lon2 : ℚ) :
    0 ≤ haversineDist lat1 lon1 lat2 lon2 := by
  unfold haversineDist
  have ha := atan2_nonneg (Real.sqrt (hav_a lat1 lon1 lat2 lon2))
    (Real.sqrt (1 - hav_a lat1 lon1 lat2 lon2)) (Real.sqrt_nonneg _)
  have hR : (0 : ℝ) ≤ R_EARTH_KM := by norm_num [R_EARTH_KM]
  nlinarith

lemma haversine_eq_ok (lat1 lon1 lat2 lon2 : ℚ)
    (h1 : -90 ≤ lat1 ∧ lat1 ≤ 90) (h2 : -90 ≤ lat2 ∧ lat2 ≤ 90)
    (h3 : -180 ≤ lon1 ∧ lon1 ≤ 180) (h4 : -180 ≤ lon2 ∧ lon2 ≤ 180) :
    haversine lat1 lon1 lat2 lon2 = .ok (haversineDist lat1 lon1 lat2 lon2) := by
  have hA : ¬(¬(-90 ≤ lat1 ∧ lat1 ≤ 90) ∨ ¬(-90 ≤ lat2 ∧ lat2 ≤ 90)) := by
    push_neg
    exact ⟨h1, h2⟩
  have hB : ¬(¬(-180 ≤ lon1 ∧ lon1 ≤ 180) ∨ ¬(-180 ≤ lon2 ∧ lon2 ≤ 180)) := by
    push_neg
    exact ⟨h3, h4⟩
  unfold haversine
  rw [if_neg hA, if_neg hB]

lemma haversine_error_iff (lat1 lon1 lat2 lon2 : ℚ) :
    haversine lat1 lon1 lat2 lon2 = .error .invalidCoordinate ↔
      ¬(-90 ≤ lat1 ∧ lat1 ≤ 90) ∨ ¬(-90 ≤ lat2 ∧ lat2 ≤ 90) ∨
      ¬(-180 ≤ lon1 ∧ lon1 ≤ 180) ∨ ¬(-180 ≤ lon2 ∧ lon2 ≤ 180) := by
  unfold haversine
  split_ifs with hA hB
  · simp only [true_iff]
    tauto
  · simp only [true_iff]
    tauto
  · simp only [false_iff]  -- goal had ok = error
    push_neg at hA hB
    push_neg
    tauto

lemma haversine_ok_inv (lat1 lon1 lat2 lon2 : ℚ) (d : ℝ)
    (h : haversine lat1 lon1 lat2 lon2 = .ok d) :
    d = haversineDist lat1 lon1 lat2 lon2 ∧
    (-90 ≤ lat1 ∧ lat1 ≤ 90) ∧ (-90 ≤ lat2 ∧ lat2 ≤ 90) ∧
    (-180 ≤ lon1 ∧ lon1 ≤ 180) ∧ (-180 ≤ lon2 ∧ lon2 ≤ 180) := by
  unfold haversine at h
  by_cases hA : ¬(-90 ≤ lat1 ∧ lat1 ≤ 90) ∨ ¬(-90 ≤ lat2 ∧ lat2 ≤ 90)
  · rw [if_pos hA] at h
    exact absurd h (by simp)
  · rw [if_neg hA] at h
    by_cases hB : ¬(-180 ≤ lon1 ∧ lon1 ≤ 180) ∨ ¬(-180 ≤ lon2 ∧ lon2 ≤ 180)
    · rw [if_pos hB] at h
      exact absurd h (by simp)
    · rw [if_neg hB] at h
      push_neg at hA hB
      exact ⟨(Except.ok.inj h).symm, hA.1, hA.2, hB.1, hB.2⟩

lemma haversine_symm (lat1 lon1 lat2 lon2 : ℚ) :
    haversine lat1 lon1 lat2 lon2 = haversine lat2 lon2 lat1 lon1 := by
  by_cases hA : -90 ≤ lat1 ∧ lat1 ≤ 90 <;>
    by_cases hB : -90 ≤ lat2 ∧ lat2 ≤ 90 <;>
    by_cases hC : -180 ≤ lon1 ∧ lon1 ≤ 180 <;>
    by_cases hD : -180 ≤ lon2 ∧ lon2 ≤ 180 <;>
    simp only [haversine, hA, hB, hC, hD, not_true_eq_false, not_false_eq_true,
      false_or, or_false, true_or, or_true, if_true, if_false] <;>
    rw [haversineDist_symm]

lemma calculate_ig_distance_eq_ok (t : IharaGrubbTransform) (n1 n2 : Node)
    (l1 l2 : ℚ) (h1 : n1.latency = some l1) (h2 : n2.latency = some l2)
    (hv1 : -90 ≤ n1.lat ∧ n1.lat ≤ 90) (hv2 : -90 ≤ n2.lat ∧ n2.lat ≤ 90)
    (hv3 : -180 ≤ n1.lon ∧ n1.lon ≤ 180) (hv4 : -180 ≤ n2.lon ∧ n2.lon ≤ 180) :
    calculate_ig_distance t n1 n2 =
      .ok (haversineDist n1.lat n1.lon n2.lat n2.lon, max l1 l2,
        haversineDist n1.lat n1.lon n2.lat n2.lon *
          ((1 + max l1 l2 / t.latency_base_ms : ℚ) : ℝ),
        1 + max l1 l2 / t.latency_base_ms) := by
  unfold calculate_ig_distance
  rw [h1, h2, haversine_eq_ok n1.lat n1.lon n2.lat n2.lon hv1 hv2 hv3 hv4]

lemma calculate_ig_distance_none (t : IharaGrubbTransform) (n1 n2 : Node)
    (h : n1.latency = none ∨ n2.latency = none) :
    calculate_ig_distance t n1 n2 = .error .latencyNotMeasured := by
  unfold calculate_ig_distance
  rcases h with h | h
  · rw [h]
  · rcases h1 : n1.latency with _ | l1
    · rfl
    · rw [h]

lemma calculate_ig_distance_ok_inv (t : IharaGrubbTransform) (n1 n2 : Node)
    (p : ℝ) (w : ℚ) (e : ℝ) (f : ℚ)
    (h : calculate_ig_distance t n1 n2 = .ok (p, w, e, f)) :
    f = 1 + w / t.latency_base_ms ∧ e = p * (f : ℝ) ∧ 0 ≤ p ∧
      p = haversineDist n1.lat n1.lon n2.lat n2.lon := by
  unfold calculate_ig_distance at h
  rcases h1 : n1.latency with _ | l1 <;> rw [h1] at h
  · simp at h
  · rcases h2 : n2.latency with _ | l2 <;> rw [h2] at h
    · simp at h
    · rcases hh : haversine n1.lat n1.lon n2.lat n2.lon with e' | d <;> rw [hh] at h
      · simp at h
      · simp only [Except.ok.injEq, Prod.mk.injEq] at h
        obtain ⟨hp, hw, he, hf⟩ := h
        obtain ⟨hd, _, _, _, _⟩ := haversine_ok_inv n1.lat n1.lon n2.lat n2.lon d hh
        subst hp hw he hf
        refine ⟨rfl, rfl, ?_, hd.symm ▸ rfl⟩
        rw [hd]
        exact haversineDist_nonneg n1.lat n1.lon n2.lat n2.lon

lemma calculate_ig_distance_symm (t : IharaGrubbTransform) (n1 n2 : Node) :
    calculate_ig_distance t n1 n2 = calculate_ig_distance t n2 n1 := by
  unfold calculate_ig_distance
  rcases n1.latency with _ | l1 <;> rcases n2.latency with _ | l2 <;> dsimp only
  rw [haversine_symm n1.lat n1.lon n2.lat n2.lon, max_comm l1 l2]

lemma ig_effort_mono (base : ℚ) (p p' : ℝ) (w w' : ℚ)
    (hbase : 0 < base) (hw0 : 0 ≤ w) (hp : p ≤ p') (hw : w ≤ w') (hp0 : 0 ≤ p') :
    p * ((1 + w / base : ℚ) : ℝ) ≤ p' * ((1 + w' / base : ℚ) : ℝ) := by
  have hFq : (1 + w / base : ℚ) ≤ 1 + w' / base := by
    have := (div_le_div_iff_of_pos_right hbase).mpr hw
    linarith
  have hF : ((1 + w / base : ℚ) : ℝ) ≤ ((1 + w' / base : ℚ) : ℝ) := by exact_mod_cast hFq
  have hF0q : (0 : ℚ) ≤ 1 + w / base := by
    have := div_nonneg hw0 hbase.le
    linarith
  have hF0 : (0 : ℝ) ≤ ((1 + w / base : ℚ) : ℝ) := by exact_mod_cast hF0q
  exact mul_le_mul hp hF hF0 hp0

lemma measureNode_latency_ip (t : IharaGrubbTransform) (envAt : ℕ → PingEnv)
    (n : Node) (h : n.ip_address ≠ "") :
    measureNode t envAt n =
      { n with latency := some (get_live_latency t (envAt n.id) n.ip_address).1 } := by
  unfold measureNode
  rw [if_pos h]

lemma measureNode_latency_user (t : IharaGrubbTransform) (envAt : ℕ → PingEnv)
    (n : Node) (h : n.ip_address = "") (hu : t.user_id = some n.id) :
    measureNode t envAt n = { n with latency := some 0 } := by
  unfold measureNode
  rw [if_neg (by simp [h]), if_pos hu]

lemma measureNode_latency_default (t : IharaGrubbTransform) (envAt : ℕ → PingEnv)
    (n : Node) (h : n.ip_address = "") (hu : t.user_id ≠ some n.id) :
    measureNode t envAt n = { n with latency := some 5 } := by
  unfold measureNode
  rw [if_neg (by simp [h]), if_neg hu]

lemma measureNode_isSome (t : IharaGrubbTransform) (envAt : ℕ → PingEnv) (n : Node) :
    (measureNode t envAt n).latency.isSome = true := by
  unfold measureNode
  split_ifs <;> rfl

lemma measure_latencies_getElem (t : IharaGrubbTransform) (envAt : ℕ → PingEnv)
    (i : ℕ) :
    (measure_latencies t envAt).nodes[i]? = t.nodes[i]?.map (measureNode t envAt) := by
  unfold measure_latencies
  exact List.getElem?_map (measureNode t envAt) t.nodes i

lemma map_measureNode_setLatencyList (t : IharaGrubbTransform) (envAt : ℕ → PingEnv) :
    ∀ (ns : List Node) (i : ℕ) (l : Option ℚ),
      (setLatencyList ns i l).map (measureNode t envAt) = ns.map (measureNode t envAt) := by
  intro ns
  induction ns with
  | nil => intro i l; rfl
  | cons n rest ih =>
      intro i l
      cases i with
      | zero => rfl
      | succ j =>
          simp only [setLatencyList, List.map_cons]
          rw [ih j l]

lemma measure_latencies_setLatency (t : IharaGrubbTransform) (envAt : ℕ → PingEnv)
    (i : ℕ) (l : Option ℚ) :
    measure_latencies (setLatency t i l) envAt = measure_latencies t envAt := by
  have h := map_measureNode_setLatencyList t envAt t.nodes i l
  calc measure_latencies (setLatency t i l) envAt
      = { t with nodes := (setLatencyList t.nodes i l).map (measureNode t envAt) } := rfl
    _ = { t with nodes := t.nodes.map (measureNode t envAt) } := by rw [h]
    _ = measure_latencies t envAt := rfl

lemma plot_net_measures (t : IharaGrubbTransform) (envAt : ℕ → PingEnv)
    (connections : List (String × String))
    (h : ∃ n ∈ t.nodes, n.latency = none) :
    plot_net t envAt connections = .ok (measure_latencies t envAt) := by
  obtain ⟨n, hn, hl⟩ := h
  have h1 : ¬(t.nodes.isEmpty = true) := by
    simp only [List.isEmpty_iff]
    exact List.ne_nil_of_mem hn
  have h2 : t.nodes.any (fun node => node.latency.isNone) = true :=
    List.any_eq_true.mpr ⟨n, hn, by simp [hl]⟩
  unfold plot_net
  rw [if_neg h1, if_pos h2]

/-- C4: `haversine` fails with `invalidCoordinate` exactly when some input
latitude lies outside `[-90, 90]` or some input longitude lies outside
`[-180, 180]`; in particular it fails for latitude 91 and -91 and for
longitude 181 and -181, and for in-range inputs it returns the distance
(never an error). -/
theorem haversine_invalid_iff :
    (∀ lat1 lon1 lat2 lon2 : ℚ,
      haversine lat1 lon1 lat2 lon2 = .error .invalidCoordinate ↔
        ¬(-90 ≤ lat1 ∧ lat1 ≤ 90) ∨ ¬(-90 ≤ lat2 ∧ lat2 ≤ 90) ∨
        ¬(-180 ≤ lon1 ∧ lon1 ≤ 180) ∨ ¬(-180 ≤ lon2 ∧ lon2 ≤ 180)) ∧
    haversine 91 0 0 0 = .error .invalidCoordinate ∧
    haversine (-91) 0 0 0 = .error .invalidCoordinate ∧
    haversine 0 181 0 0 = .error .invalidCoordinate ∧
    haversine 0 (-181) 0 0 = .error .invalidCoordinate ∧
    (∀ lat1 lon1 lat2 lon2 : ℚ,
      -90 ≤ lat1 → lat1 ≤ 90 → -90 ≤ lat2 → lat2 ≤ 90 →
      -180 ≤ lon1 → lon1 ≤ 180 → -180 ≤ lon2 → lon2 ≤ 180 →
      haversine lat1 lon1 lat2 lon2 = .ok (haversineDist lat1 lon1 lat2 lon2)) := by
  refine ⟨haversine_error_iff, ?_, ?_, ?_, ?_, ?_⟩
  · rw [haversine_error_iff]
    norm_num
  · rw [haversine_error_iff]
    norm_num
  · rw [haversine_error_iff]
    norm_num
  · rw [haversine_error_iff]
    norm_num
  · intro lat1 lon1 lat2 lon2 h1 h2 h3 h4 h5 h6 h7 h8
    exact haversine_eq_ok lat1 lon1 lat2 lon2 ⟨h1, h2⟩ ⟨h3, h4⟩ ⟨h5, h6⟩ ⟨h7, h8⟩

/-- Witness for C4: a concrete in-range evaluation. -/
theorem haversine_invalid_iff_witness :
    haversine 1 2 3 4 = .ok (haversineDist 1 2 3 4) :=
  haversine_invalid_iff.2.2.2.2.2 1 2 3 4 (by norm_num) (by norm_num) (by norm_num)
    (by norm_num) (by norm_num) (by norm_num) (by norm_num) (by norm_num)

/-- C5: every distance `haversine` returns is non-negative; for identical
valid coordinates it returns exactly `0.0`; and it is symmetric in the two
coordinate pairs. -/
theorem haversine_metric_properties :
    (∀ (lat1 lon1 lat2 lon2 : ℚ) (d : ℝ),
      haversine lat1 lon1 lat2 lon2 = .ok d → 0 ≤ d) ∧
    (∀ lat lon : ℚ, -90 ≤ lat → lat ≤ 90 → -180 ≤ lon → lon ≤ 180 →
      haversine lat lon lat lon = .ok 0) ∧
    (∀ lat1 lon1 lat2 lon2 : ℚ,
      haversine lat1 lon1 lat2 lon2 = haversine lat2 lon2 lat1 lon1) := by
  refine ⟨?_, ?_, haversine_symm⟩
  · intro lat1 lon1 lat2 lon2 d h
    obtain ⟨hd, _⟩ := haversine_ok_inv lat1 lon1 lat2 lon2 d h
    rw [hd]
    exact haversineDist_nonneg lat1 lon1 lat2 lon2
  · intro lat lon h1 h2 h3 h4
    rw [haversine_eq_ok lat lon lat lon ⟨h1, h2⟩ ⟨h1, h2⟩ ⟨h3, h4⟩ ⟨h3, h4⟩,
      haversineDist_diag]

/-- Witness for C5: concrete instances of the zero-diagonal, the
non-negativity and the symmetry. -/
theorem haversine_metric_properties_witness :
    haversine 10 20 10 20 = .ok 0 ∧ (0 : ℝ) ≤ 0 ∧
    haversine 1 2 3 4 = haversine 3 4 1 2 := by
  have hz := haversine_metric_properties.2.1 10 20 (by norm_num) (by norm_num)
    (by norm_num) (by norm_num)
  exact ⟨hz, haversine_metric_properties.1 10 20 10 20 0 hz,
    haversine_metric_properties.2.2 1 2 3 4⟩

/-- Counterexample to C1 as stated: both latencies are measured, yet the
result is not the stated tuple — node1's latitude 91 makes the embedded
`haversine` call fail, and `calculate_ig_distance` propagates
`invalidCoordinate`. -/
theorem calculate_ig_distance_claim_counterexample :
    calculate_ig_distance IharaGrubbTransform.init
        ⟨0, "a", 91, 0, 0, "", some 10⟩ ⟨1, "b", 0, 0, 0, "", some 20⟩ =
      .error .invalidCoordinate ∧
    (⟨0, "a", 91, 0, 0, "", some 10⟩ : Node).latency = some 10 ∧
    (⟨1, "b", 0, 0, 0, "", some 20⟩ : Node).latency = some 20 := by
  refine ⟨?_, rfl, rfl⟩
  have h : haversine (91 : ℚ) 0 0 0 = .error .invalidCoordinate := by
    rw [haversine_error_iff]
    norm_num
  unfold calculate_ig_distance
  dsimp only
  rw [h]

/-- C1 (amended): with both latencies measured and both coordinates in
range, `calculate_ig_distance` returns exactly the tuple
`(physical_km, worst_latency, effort_distance, effort_factor)` with
`physical_km` the haversine distance, `worst_latency` the maximum of the two
latencies, `effort_factor = 1 + worst_latency / latency_base_ms` and
`effort_distance = physical_km * effort_factor`; if either latency is absent
it fails with `latencyNotMeasured`; and for `latency_base_ms = 100` the
factor is 1 at worst latency 0 and 2 at worst latency 100. -/
theorem calculate_ig_distance_spec :
    (∀ (t : IharaGrubbTransform) (node1 node2 : Node),
      node1.latency = none ∨ node2.latency = none →
      calculate_ig_distance t node1 node2 = .error .latencyNotMeasured) ∧
    (∀ (t : IharaGrubbTransform) (node1 node2 : Node) (l1 l2 : ℚ),
      node1.latency = some l1 → node2.latency = some l2 →
      -90 ≤ node1.lat ∧ node1.lat ≤ 90 → -90 ≤ node2.lat ∧ node2.lat ≤ 90 →
      -180 ≤ node1.lon ∧ node1.lon ≤ 180 → -180 ≤ node2.lon ∧ node2.lon ≤ 180 →
      calculate_ig_distance t node1 node2 =
        .ok (haversineDist node1.lat node1.lon node2.lat node2.lon, max l1 l2,
          haversineDist node1.lat node1.lon node2.lat node2.lon *
            ((1 + max l1 l2 / t.latency_base_ms : ℚ) : ℝ),
          1 + max l1 l2 / t.latency_base_ms)) ∧
    (∀ (t : IharaGrubbTransform) (node1 node2 : Node) (l1 l2 : ℚ),
      node1.latency = some l1 → node2.latency = some l2 →
      -90 ≤ node1.lat ∧ node1.lat ≤ 90 → -90 ≤ node2.lat ∧ node2.lat ≤ 90 →
      -180 ≤ node1.lon ∧ node1.lon ≤ 180 → -180 ≤ node2.lon ∧ node2.lon ≤ 180 →
      t.latency_base_ms = 100 →
      (max l1 l2 = 0 → resultFactor (calculate_ig_distance t node1 node2) = some 1) ∧
      (max l1 l2 = 100 →
        resultFactor (calculate_ig_distance t node1 node2) = some 2)) := by
  refine ⟨calculate_ig_distance_none, calculate_ig_distance_eq_ok, ?_⟩
  intro t node1 node2 l1 l2 h1 h2 hv1 hv2 hv3 hv4 hbase
  rw [calculate_ig_distance_eq_ok t node1 node2 l1 l2 h1 h2 hv1 hv2 hv3 hv4]
  unfold resultFactor
  constructor <;> intro hmax <;> rw [hmax, hbase] <;> norm_num

/-- Witness for C1: concrete nodes with measured latencies 0 and 100 under
the default base 100, and a concrete absent-latency failure. -/
theorem calculate_ig_distance_spec_witness :
    resultFactor (calculate_ig_distance IharaGrubbTransform.init
        ⟨0, "a", 37, -122, 15, "", some 0⟩ ⟨1, "b", 40, -74, 30, "", some 100⟩) =
      some 2 ∧
    calculate_ig_distance IharaGrubbTransform.init
        ⟨2, "c", 0, 0, 0, "", none⟩ ⟨3, "d", 0, 0, 0, "", some 1⟩ =
      .error .latencyNotMeasured :=
  ⟨(calculate_ig_distance_spec.2.2 IharaGrubbTransform.init
      ⟨0, "a", 37, -122, 15, "", some 0⟩ ⟨1, "b", 40, -74, 30, "", some 100⟩ 0 100
      rfl rfl (by norm_num) (by norm_num) (by norm_num) (by norm_num) rfl).2
      (by norm_num),
   calculate_ig_distance_spec.1 IharaGrubbTransform.init
      ⟨2, "c", 0, 0, 0, "", none⟩ ⟨3, "d", 0, 0, 0, "", some 1⟩ (Or.inl rfl)⟩

/-- C6: `calculate_ig_distance` is a pure function of its arguments
(determinism is inherent in the embedding), symmetric in the two node
arguments, and with a positive `latency_base_ms` the effort-distance
component is monotone non-decreasing in both the physical distance and the
worst-of-pair latency. -/
theorem calculate_ig_distance_symm_monotone :
    (∀ (t : IharaGrubbTransform) (node1 node2 : Node),
      calculate_ig_distance t node1 node2 = calculate_ig_distance t node2 node1) ∧
    (∀ (t : IharaGrubbTransform) (a b a' b' : Node) (p p' e e' : ℝ) (w w' f f' : ℚ),
      calculate_ig_distance t a b = .ok (p, w, e, f) →
      calculate_ig_distance t a' b' = .ok (p', w', e', f') →
      0 < t.latency_base_ms → 0 ≤ w → p ≤ p' → w ≤ w' → e ≤ e') := by
  refine ⟨calculate_ig_distance_symm, ?_⟩
  intro t a b a' b' p p' e e' w w' f f' h h' hbase hw0 hp hw
  obtain ⟨hf, he, _, _⟩ := calculate_ig_distance_ok_inv t a b p w e f h
  obtain ⟨hf', he', hp0', _⟩ := calculate_ig_distance_ok_inv t a' b' p' w' e' f' h'
  rw [he, hf, he', hf']
  exact ig_effort_mono t.latency_base_ms p p' w w' hbase hw0 hp hw hp0'

/-- Witness for C6: symmetry at concrete nodes, and monotonicity of the
effort component between two co-located pairs with worst latencies 5 and 7
under the default base. -/
theorem calculate_ig_distance_symm_monotone_witness :
    calculate_ig_distance IharaGrubbTransform.init
        ⟨0, "a", 0, 0, 0, "", some 5⟩ ⟨1, "b", 0, 0, 0, "", some 7⟩ =
      calculate_ig_distance IharaGrubbTransform.init
        ⟨1, "b", 0, 0, 0, "", some 7⟩ ⟨0, "a", 0, 0, 0, "", some 5⟩ ∧
    haversineDist 0 0 0 0 * ((1 + max (5 : ℚ) 5 / 100 : ℚ) : ℝ) ≤
      haversineDist 0 0 0 0 * ((1 + max (7 : ℚ) 7 / 100 : ℚ) : ℝ) := by
  constructor
  · exact calculate_ig_distance_symm_monotone.1 IharaGrubbTransform.init
      ⟨0, "a", 0, 0, 0, "", some 5⟩ ⟨1, "b", 0, 0, 0, "", some 7⟩
  · exact calculate_ig_distance_symm_monotone.2 IharaGrubbTransform.init
      ⟨0, "a", 0, 0, 0, "", some 5⟩ ⟨0, "a", 0, 0, 0, "", some 5⟩
      ⟨1, "b", 0, 0, 0, "", some 7⟩ ⟨1, "b", 0, 0, 0, "", some 7⟩
      (haversineDist 0 0 0 0) (haversineDist 0 0 0 0)
      (haversineDist 0 0 0 0 * ((1 + max (5 : ℚ) 5 / 100 : ℚ) : ℝ))
      (haversineDist 0 0 0 0 * ((1 + max (7 : ℚ) 7 / 100 : ℚ) : ℝ))
      (max 5 5) (max 7 7) (1 + max (5 : ℚ) 5 / 100) (1 + max (7 : ℚ) 7 / 100)
      (calculate_ig_distance_eq_ok IharaGrubbTransform.init
        ⟨0, "a", 0, 0, 0, "", some 5⟩ ⟨0, "a", 0, 0, 0, "", some 5⟩ 5 5 rfl rfl
        (by norm_num) (by norm_num) (by norm_num) (by norm_num))
      (calculate_ig_distance_eq_ok IharaGrubbTransform.init
        ⟨1, "b", 0, 0, 0, "", some 7⟩ ⟨1, "b", 0, 0, 0, "", some 7⟩ 7 7 rfl rfl
        (by norm_num) (by norm_num) (by norm_num) (by norm_num))
      (by norm_num [IharaGrubbTransform.init, DEFAULT_LATENCY_BASE_MS])
      (by norm_num) (le_refl _) (by norm_num)

/-- C2: `get_live_latency` always returns a value (it is total, modelling
"never raises").  An empty or `"0.0.0.0"` address returns `0.0` without
spawning a process; an unsupported platform returns the fallback without
spawning; a timeout, an unexpected invocation error, or a non-zero exit
returns the fallback; a clean exit with a matching extraction pattern
returns the extracted average; a clean exit without a match returns half the
wall-clock duration of the invocation in milliseconds.  The last conjuncts
pin down the platform dispatch: "Windows", "Linux" and "Darwin" get their
command/pattern pairs, everything else is unsupported. -/
theorem get_live_latency_spec :
    (∀ (t : IharaGrubbTransform) (env : PingEnv),
      get_live_latency t env "" = (0, false) ∧
      get_live_latency t env "0.0.0.0" = (0, false)) ∧
    (∀ (t : IharaGrubbTransform) (env : PingEnv) (ip : String),
      ip ≠ "" → ip ≠ "0.0.0.0" → pingSelect t env ip = none →
      get_live_latency t env ip = (t.fallback_latency_ms, false)) ∧
    (∀ (t : IharaGrubbTransform) (env : PingEnv) (ip : String)
        (command : List String) (regex : String),
      ip ≠ "" → ip ≠ "0.0.0.0" → pingSelect t env ip = some (command, regex) →
      ((env.run command = .timeoutExpired ∨ env.run command = .raised →
          get_live_latency t env ip = (t.fallback_latency_ms, true)) ∧
       (∀ (rc : ℤ) (out : String), env.run command = .completed rc out → rc ≠ 0 →
          get_live_latency t env ip = (t.fallback_latency_ms, true)) ∧
       (∀ (out : String) (v : ℚ), env.run command = .completed 0 out →
          env.re_search regex out = some v →
          get_live_latency t env ip = (v, true)) ∧
       (∀ out : String, env.run command = .completed 0 out →
          env.re_search regex out = none →
          get_live_latency t env ip =
            ((env.time_end - env.time_start) * 1000 / 2, true)))) ∧
    (∀ (t : IharaGrubbTransform) (env : PingEnv) (ip : String),
      (env.system = "Windows" →
        pingSelect t env ip =
          some (["ping", "-n", toString t.ping_count, ip], "Average = (\\d+)ms")) ∧
      (env.system = "Linux" ∨ env.system = "Darwin" →
        pingSelect t env ip =
          some (["ping", "-c", toString t.ping_count, "-W", "1", ip],
            "min/avg/max/[^\\s]+ = [\\d.]+/([\\d.]+)/")) ∧
      (env.system ≠ "Windows" → env.system ≠ "Linux" → env.system ≠ "Darwin" →
        pingSelect t env ip = none)) := by
  have hback : ∀ (t : IharaGrubbTransform) (env : PingEnv) (ip : String),
      ip ≠ "" → ip ≠ "0.0.0.0" →
      get_live_latency t env ip =
        match pingSelect t env ip with
        | some (command, regex) => runPing t env command regex
        | none => (t.fallback_latency_ms, false) := by
    intro t env ip h1 h2
    unfold get_live_latency
    rw [if_neg]
    intro h
    rcases h with h | h
    · exact h1 h
    · exact h2 h
  refine ⟨?_, ?_, ?_, ?_⟩
  · intro t env
    constructor
    · unfold get_live_latency
      rw [if_pos (Or.inl rfl)]
    · unfold get_live_latency
      rw [if_pos (Or.inr rfl)]
  · intro t env ip h1 h2 hsel
    rw [hback t env ip h1 h2, hsel]
  · intro t env ip command regex h1 h2 hsel
    have hb := hback t env ip h1 h2
    rw [hsel] at hb
    dsimp only at hb
    refine ⟨?_, ?_, ?_, ?_⟩
    · intro h
      rw [hb]
      unfold runPing
      rcases h with h | h <;> rw [h]
    · intro rc out h hrc
      rw [hb]
      unfold runPing
      rw [h]
      simp [hrc]
    · intro out v h hm
      rw [hb]
      unfold runPing
      rw [h]
      simp [hm]
    · intro out h hm
      rw [hb]
      unfold runPing
      rw [h]
      simp [hm]
  · intro t env ip
    refine ⟨?_, ?_, ?_⟩
    · intro h
      unfold pingSelect
      rw [if_pos h]
    · intro h
      unfold pingSelect
      rw [if_neg, if_pos h]
      intro hw
      rcases h with h | h <;> rw [hw] at h <;> simp at h
    · intro h1 h2 h3
      unfold pingSelect
      rw [if_neg h1, if_neg]
      intro h
      rcases h with h | h
      · exact h2 h
      · exact h3 h

/-- Witness for C2: a Linux environment whose ping exits cleanly and whose
output parses to 42 yields 42; an unsupported platform yields the fallback
without spawning. -/
theorem get_live_latency_spec_witness :
    get_live_latency IharaGrubbTransform.init
        ⟨"Linux", fun _ => .completed 0 "x", fun _ _ => some 42, 0, 3⟩ "1.2.3.4" =
      (42, true) ∧
    get_live_latency IharaGrubbTransform.init
        ⟨"Plan9", fun _ => .completed 0 "x", fun _ _ => some 42, 0, 3⟩ "1.2.3.4" =
      (IharaGrubbTransform.init.fallback_latency_ms, false) := by
  constructor
  · exact (get_live_latency_spec.2.2.1 IharaGrubbTransform.init
      ⟨"Linux", fun _ => .completed 0 "x", fun _ _ => some 42, 0, 3⟩ "1.2.3.4"
      ["ping", "-c", toString IharaGrubbTransform.init.ping_count, "-W", "1", "1.2.3.4"]
      "min/avg/max/[^\\s]+ = [\\d.]+/([\\d.]+)/"
      (by decide) (by decide) rfl).2.2.1 "x" 42 rfl rfl
  · exact get_live_latency_spec.2.1 IharaGrubbTransform.init
      ⟨"Plan9", fun _ => .completed 0 "x", fun _ _ => some 42, 0, 3⟩ "1.2.3.4"
      (by decide) (by decide) rfl

/-- C9: `measure_latencies` leaves the node count unchanged and gives every
node a measured latency: position by position, a node with a non-empty
address gets the `get_live_latency` result for that address, the user node
without an address gets `0.0`, every other node without an address gets
`5.0`. -/
theorem measure_latencies_spec :
    (∀ (t : IharaGrubbTransform) (envAt : ℕ → PingEnv),
      (measure_latencies t envAt).nodes.length = t.nodes.length) ∧
    (∀ (t : IharaGrubbTransform) (envAt : ℕ → PingEnv),
      ∀ n ∈ (measure_latencies t envAt).nodes, n.latency.isSome = true) ∧
    (∀ (t : IharaGrubbTransform) (envAt : ℕ → PingEnv) (i : ℕ) (n : Node),
      t.nodes[i]? = some n →
      ((n.ip_address ≠ "" →
        (measure_latencies t envAt).nodes[i]? =
          some { n with
            latency := some (get_live_latency t (envAt n.id) n.ip_address).1 }) ∧
       (n.ip_address = "" → t.user_id = some n.id →
        (measure_latencies t envAt).nodes[i]? = some { n with latency := some 0 }) ∧
       (n.ip_address = "" → t.user_id ≠ some n.id →
        (measure_latencies t envAt).nodes[i]? =
          some { n with latency := some 5 }))) := by
  refine ⟨?_, ?_, ?_⟩
  · intro t envAt
    unfold measure_latencies
    exact List.length_map t.nodes (measureNode t envAt)
  · intro t envAt n hn
    unfold measure_latencies at hn
    obtain ⟨m, _, hm⟩ := List.mem_map.mp hn
    rw [← hm]
    exact measureNode_isSome t envAt m
  · intro t envAt i n hi
    have h := measure_latencies_getElem t envAt i
    rw [hi] at h
    refine ⟨?_, ?_, ?_⟩
    · intro hip
      rw [h, Option.map_some', measureNode_latency_ip t envAt n hip]
    · intro hip hu
      rw [h, Option.map_some', measureNode_latency_user t envAt n hip hu]
    · intro hip hu
      rw [h, Option.map_some', measureNode_latency_default t envAt n hip hu]

/-- Witness for C9: a three-node model (one with an address, the user node
without one, a third without one) under a concrete environment. -/
theorem measure_latencies_spec_witness :
    (measure_latencies
        ⟨100, 4, 5, 999,
          [⟨0, "a", 1, 2, 3, "1.1.1.1", none⟩, ⟨1, "u", 0, 0, 0, "", some 9⟩,
            ⟨2, "c", 0, 0, 0, "", none⟩], some 1, 3⟩
        (fun _ => ⟨"Plan9", fun _ => .raised, fun _ _ => none, 0, 0⟩)).nodes[0]? =
      some ⟨0, "a", 1, 2, 3, "1.1.1.1",
        some (get_live_latency
          ⟨100, 4, 5, 999,
            [⟨0, "a", 1, 2, 3, "1.1.1.1", none⟩, ⟨1, "u", 0, 0, 0, "", some 9⟩,
              ⟨2, "c", 0, 0, 0, "", none⟩], some 1, 3⟩
          ⟨"Plan9", fun _ => .raised, fun _ _ => none, 0, 0⟩ "1.1.1.1").1⟩ ∧
    (measure_latencies
        ⟨100, 4, 5, 999,
          [⟨0, "a", 1, 2, 3, "1.1.1.1", none⟩, ⟨1, "u", 0, 0, 0, "", some 9⟩,
            ⟨2, "c", 0, 0, 0, "", none⟩], some 1, 3⟩
        (fun _ => ⟨"Plan9", fun _ => .raised, fun _ _ => none, 0, 0⟩)).nodes[1]? =
      some ⟨1, "u", 0, 0, 0, "", some 0⟩ ∧
    (measure_latencies
        ⟨100, 4, 5, 999,
          [⟨0, "a", 1, 2, 3, "1.1.1.1", none⟩, ⟨1, "u", 0, 0, 0, "", some 9⟩,
            ⟨2, "c", 0, 0, 0, "", none⟩], some 1, 3⟩
        (fun _ => ⟨"Plan9", fun _ => .raised, fun _ _ => none, 0, 0⟩)).nodes[2]? =
      some ⟨2, "c", 0, 0, 0, "", some 5⟩ :=
  ⟨(measure_latencies_spec.2.2
      ⟨100, 4, 5, 999,
        [⟨0, "a", 1, 2, 3, "1.1.1.1", none⟩, ⟨1, "u", 0, 0, 0, "", some 9⟩,
          ⟨2, "c", 0, 0, 0, "", none⟩], some 1, 3⟩
      (fun _ => ⟨"Plan9", fun _ => .raised, fun _ _ => none, 0, 0⟩) 0
      ⟨0, "a", 1, 2, 3, "1.1.1.1", none⟩ rfl).1 (by decide),
   (measure_latencies_spec.2.2
      ⟨100, 4, 5, 999,
        [⟨0, "a", 1, 2, 3, "1.1.1.1", none⟩, ⟨1, "u", 0, 0, 0, "", some 9⟩,
          ⟨2, "c", 0, 0, 0, "", none⟩], some 1, 3⟩
      (fun _ => ⟨"Plan9", fun _ => .raised, fun _ _ => none, 0, 0⟩) 1
      ⟨1, "u", 0, 0, 0, "", some 9⟩ rfl).2.1 rfl rfl,
   (measure_latencies_spec.2.2
      ⟨100, 4, 5, 999,
        [⟨0, "a", 1, 2, 3, "1.1.1.1", none⟩, ⟨1, "u", 0, 0, 0, "", some 9⟩,
          ⟨2, "c", 0, 0, 0, "", none⟩], some 1, 3⟩
      (fun _ => ⟨"Plan9", fun _ => .raised, fun _ _ => none, 0, 0⟩) 2
      ⟨2, "c", 0, 0, 0, "", none⟩ rfl).2.2 rfl (by decide)⟩

/-- C10: `measure_latencies` overwrites every previously stored latency (its
result does not depend on any node's prior latency value), and `plot_net`
performs the full re-measurement whenever at least one node's latency is
absent. -/
theorem measure_latencies_overwrites :
    (∀ (t : IharaGrubbTransform) (envAt : ℕ → PingEnv) (i : ℕ) (l : Option ℚ),
      measure_latencies (setLatency t i l) envAt = measure_latencies t envAt) ∧
    (∀ (t : IharaGrubbTransform) (envAt : ℕ → PingEnv)
        (connections : List (String × String)),
      (∃ n ∈ t.nodes, n.latency = none) →
      plot_net t envAt connections = .ok (measure_latencies t envAt)) :=
  ⟨measure_latencies_setLatency, plot_net_measures⟩

/-- Witness for C10: a two-node model where one node was measured and a
freshly added one was not; `plot_net` re-measures the whole model. -/
theorem measure_latencies_overwrites_witness :
    plot_net
        ⟨100, 4, 5, 999,
          [⟨0, "a", 1, 2, 3, "", some 7⟩, ⟨1, "b", 4, 5, 6, "", none⟩], none, 2⟩
        (fun _ => ⟨"Plan9", fun _ => .raised, fun _ _ => none, 0, 0⟩) [] =
      .ok (measure_latencies
        ⟨100, 4, 5, 999,
          [⟨0, "a", 1, 2, 3, "", some 7⟩, ⟨1, "b", 4, 5, 6, "", none⟩], none, 2⟩
        (fun _ => ⟨"Plan9", fun _ => .raised, fun _ _ => none, 0, 0⟩)) ∧
    measure_latencies
        (setLatency
          ⟨100, 4, 5, 999,
            [⟨0, "a", 1, 2, 3, "", some 7⟩, ⟨1, "b", 4, 5, 6, "", none⟩], none, 2⟩
          0 (some 123))
        (fun _ => ⟨"Plan9", fun _ => .raised, fun _ _ => none, 0, 0⟩) =
      measure_latencies
        ⟨100, 4, 5, 999,
          [⟨0, "a", 1, 2, 3, "", some 7⟩, ⟨1, "b", 4, 5, 6, "", none⟩], none, 2⟩
        (fun _ => ⟨"Plan9", fun _ => .raised, fun _ _ => none, 0, 0⟩) :=
  ⟨measure_latencies_overwrites.2
      ⟨100, 4, 5, 999,
        [⟨0, "a", 1, 2, 3, "", some 7⟩, ⟨1, "b", 4, 5, 6, "", none⟩], none, 2⟩
      (fun _ => ⟨"Plan9", fun _ => .raised, fun _ _ => none, 0, 0⟩) []
      ⟨⟨1, "b", 4, 5, 6, "", none⟩, by decide, rfl⟩,
   measure_latencies_overwrites.1
      ⟨100, 4, 5, 999,
        [⟨0, "a", 1, 2, 3, "", some 7⟩, ⟨1, "b", 4, 5, 6, "", none⟩], none, 2⟩
      (fun _ => ⟨"Plan9", fun _ => .raised, fun _ _ => none, 0, 0⟩) 0 (some 123)⟩

/-- C3: `fetch_user_location` tries the two services in order; a parsed
result is accepted only when not both coordinates are zero, and the first
acceptance returns immediately (regardless of the second service); every
per-service failure (transport, HTTP status, JSON decoding, adapter
exception) and the zero-rejection fall through to the next; when both
services yield nothing it fails with `noServiceAvailable`, which carries no
data.  The final conjunct is the concrete scenario of the spec. -/
theorem fetch_user_location_spec :
    (∀ (s2 : ServiceOutcome) (data : JDict) (lat lon : ℚ) (ip : JValue),
      _parse_ipapi_response data = .ok (lat, lon, ip) → (lat ≠ 0 ∨ lon ≠ 0) →
      fetch_user_location (.body data) s2 = .ok (lat, lon, ip)) ∧
    (∀ (s1 : ServiceOutcome) (data : JDict) (lat lon : ℚ) (ip : JValue),
      serviceAttempt s1 _parse_ipapi_response = none →
      _parse_ipinfo_response data = .ok (lat, lon, ip) → (lat ≠ 0 ∨ lon ≠ 0) →
      fetch_user_location s1 (.body data) = .ok (lat, lon, ip)) ∧
    (∀ s1 s2 : ServiceOutcome,
      serviceAttempt s1 _parse_ipapi_response = none →
      serviceAttempt s2 _parse_ipinfo_response = none →
      fetch_user_location s1 s2 = .error .noServiceAvailable) ∧
    (∀ parse : JDict → Except PyError (ℚ × ℚ × JValue),
      serviceAttempt .transportError parse = none ∧
      serviceAttempt .statusError parse = none ∧
      serviceAttempt .jsonError parse = none ∧
      (∀ (data : JDict) (err : PyError), parse data = .error err →
        serviceAttempt (.body data) parse = none) ∧
      (∀ (data : JDict) (ip : JValue), parse data = .ok (0, 0, ip) →
        serviceAttempt (.body data) parse = none)) ∧
    fetch_user_location (.body [("lat", .jnum 0), ("lon", .jnum 0)])
        (.body [("loc", .jstr "40.0,-73.0"), ("ip", .jstr "9.9.9.9")]) =
      .ok (40, -73, .jstr "9.9.9.9") := by
  have hAcc : ∀ (outcome : ServiceOutcome) (data : JDict)
      (parse : JDict → Except PyError (ℚ × ℚ × JValue)) (lat lon : ℚ) (ip : JValue),
      outcome = .body data → parse data = .ok (lat, lon, ip) → (lat ≠ 0 ∨ lon ≠ 0) →
      serviceAttempt outcome parse = some (lat, lon, ip) := by
    intro outcome data parse lat lon ip ho hp hnz
    subst ho
    unfold serviceAttempt
    dsimp only
    rw [hp]
    dsimp only
    rw [if_pos hnz]
  refine ⟨?_, ?_, ?_, ?_, by decide⟩
  · intro s2 data lat lon ip hp hnz
    unfold fetch_user_location
    rw [hAcc (.body data) data _parse_ipapi_response lat lon ip rfl hp hnz]
  · intro s1 data lat lon ip h1 hp hnz
    unfold fetch_user_location
    rw [h1, hAcc (.body data) data _parse_ipinfo_response lat lon ip rfl hp hnz]
  · intro s1 s2 h1 h2
    unfold fetch_user_location
    rw [h1, h2]
  · intro parse
    refine ⟨rfl, rfl, rfl, ?_, ?_⟩
    · intro data err hp
      unfold serviceAttempt
      dsimp only
      rw [hp]
    · intro data ip hp
      unfold serviceAttempt
      dsimp only
      rw [hp]
      dsimp only
      rw [if_neg]
      intro h
      rcases h with h | h <;> exact h rfl

/-- Witness for C3: both services failing on transport yields
`noServiceAvailable`; a first-service success returns immediately. -/
theorem fetch_user_location_spec_witness :
    fetch_user_location .transportError .transportError =
      .error .noServiceAvailable ∧
    fetch_user_location (.body [("lat", .jnum 7), ("lon", .jnum 8),
        ("query", .jstr "1.2.3.4")]) .statusError =
      .ok (7, 8, .jstr "1.2.3.4") :=
  ⟨fetch_user_location_spec.2.2.1 .transportError .transportError rfl rfl,
   fetch_user_location_spec.1 .statusError
      [("lat", .jnum 7), ("lon", .jnum 8), ("query", .jstr "1.2.3.4")] 7 8
      (.jstr "1.2.3.4") (by decide) (by decide)⟩

/-- Counterexample to C7 as stated: `add_node` happily creates and returns a
node whose stored latitude is 91, outside `[-90, 90]` — no validation
happens at construction. -/
theorem add_node_claim_counterexample :
    (add_node IharaGrubbTransform.init "x" 91 0 0 "" false).2.lat = 91 ∧
    ¬((add_node IharaGrubbTransform.init "x" 91 0 0 "" false).2.lat ≤ 90) :=
  ⟨rfl, by decide⟩

/-- C7 (amended): the `Node` constructor and `add_node` perform no
coordinate validation: the created node stores the latitude and longitude
exactly as given (valid or not), is appended to the collection, and starts
with an absent latency; coordinate validity is enforced only later, by
`haversine`. -/
theorem add_node_stores_coordinates :
    ∀ (t : IharaGrubbTransform) (name : String) (lat lon elevation_floor : ℚ)
      (ip_address : String) (is_user_node : Bool),
      (add_node t name lat lon elevation_floor ip_address is_user_node).2 =
        ⟨t.next_id, name, lat, lon, elevation_floor, ip_address, none⟩ ∧
      (add_node t name lat lon elevation_floor ip_address is_user_node).1.nodes =
        t.nodes ++ [⟨t.next_id, name, lat, lon, elevation_floor, ip_address, none⟩] :=
  fun _ _ _ _ _ _ _ => ⟨rfl, rfl⟩

/-- Counterexample to C8 as stated: the adapters are not total on malformed
field values — `_parse_ipapi_response` raises `ValueError` on a lat that
`float` rejects, and `_parse_ipinfo_response` raises `AttributeError` on a
non-string `loc`. -/
theorem parse_adapters_claim_counterexample :
    _parse_ipapi_response [("lat", .jstr "abc")] = .error .valueError ∧
    _parse_ipinfo_response [("loc", .jnum 5)] = .error .attributeError :=
  ⟨by decide, by decide⟩

/-- C8 (amended): each adapter is a pure function of the decoded mapping;
missing fields degrade to zeros and an empty address, and
`_parse_ipinfo_response` degrades to zeros on a `loc` string that does not
split into two parseable numbers; but a `lat`/`lon` value that `float`
rejects raises `ValueError` in `_parse_ipapi_response`, and a non-string
`loc` raises `AttributeError` in `_parse_ipinfo_response` (both are absorbed
by `fetch_user_location`'s per-service handler). -/
theorem parse_adapters_tolerance :
    (∀ data : JDict, data.lookup "lat" = none → data.lookup "lon" = none →
      data.lookup "query" = none →
      _parse_ipapi_response data = .ok (0, 0, .jstr "")) ∧
    (∀ data : JDict, data.lookup "loc" = none → data.lookup "ip" = none →
      _parse_ipinfo_response data = .ok (0, 0, .jstr "")) ∧
    (∀ (data : JDict) (s : String), data.lookup "loc" = some (.jstr s) →
      (((pySplit s ',').length = 2 →
        (pyFloatString ((pySplit s ',').headD "") = none ∨
          pyFloatString (((pySplit s ',').drop 1).headD "") = none) →
        _parse_ipinfo_response data = .ok (0, 0, dictGet data "ip" (.jstr ""))) ∧
       ((pySplit s ',').length ≠ 2 →
        _parse_ipinfo_response data = .ok (0, 0, dictGet data "ip" (.jstr ""))))) ∧
    (∀ (data : JDict) (s : String), data.lookup "lat" = some (.jstr s) →
      pyFloatString s = none →
      _parse_ipapi_response data = .error .valueError) ∧
    (∀ (data : JDict) (v : JValue), data.lookup "loc" = some v →
      (∀ s, v ≠ .jstr s) →
      _parse_ipinfo_response data = .error .attributeError) := by
  refine ⟨?_, ?_, ?_, ?_, ?_⟩
  · intro data h1 h2 h3
    unfold _parse_ipapi_response dictGet
    rw [h1, h2, h3]
    rfl
  · intro data h1 h2
    unfold _parse_ipinfo_response dictGet
    rw [h1, h2]
    rfl
  · intro data s hloc
    constructor
    · intro hlen hfail
      unfold _parse_ipinfo_response dictGet
      rw [hloc]
      dsimp only
      rw [if_pos hlen]
      rcases hfail with h | h
      · rw [h]
      · cases h0 : pyFloatString ((pySplit s ',').headD "")
        · rw [h]
        · rw [h]
    · intro hlen
      unfold _parse_ipinfo_response dictGet
      rw [hloc]
      dsimp only
      rw [if_neg hlen]
  · intro data s hlat hbad
    unfold _parse_ipapi_response dictGet pyFloat
    rw [hlat]
    dsimp only
    rw [hbad]
    rfl
  · intro data v hloc hnv
    unfold _parse_ipinfo_response dictGet
    rw [hloc]
    cases v with
    | jnum q => rfl
    | jstr s => exact absurd rfl (hnv s)
    | jbool b => rfl
    | jnull => rfl
    | jarr => rfl
    | jobj => rfl

/-- Witness for C8: concrete degradations and concrete raises. -/
theorem parse_adapters_tolerance_witness :
    _parse_ipapi_response [("other", .jnum 3)] = .ok (0, 0, .jstr "") ∧
    _parse_ipinfo_response [("loc", .jstr "x,y"), ("ip", .jstr "8.8.8.8")] =
      .ok (0, 0, dictGet [("loc", .jstr "x,y"), ("ip", .jstr "8.8.8.8")] "ip"
        (.jstr "")) ∧
    _parse_ipapi_response [("lat", .jstr "oops")] = .error .valueError ∧
    _parse_ipinfo_response [("loc", .jbool true)] = .error .attributeError :=
  ⟨parse_adapters_tolerance.1 [("other", .jnum 3)] rfl rfl rfl,
   (parse_adapters_tolerance.2.2.1 [("loc", .jstr "x,y"), ("ip", .jstr "8.8.8.8")]
      "x,y" rfl).1 (by decide) (Or.inl (by decide)),
   parse_adapters_tolerance.2.2.2.1 [("lat", .jstr "oops")] "oops" rfl (by decide),
   parse_adapters_tolerance.2.2.2.2 [("loc", .jbool true)] (.jbool true) rfl
      (fun s h => JValue.noConfusion h)⟩
